import Mathlib

/-!
Verification development for the Google-Docs positional edit compiler and
structure parser of this repository (`gdocs/docs_tools.py`).

The editing orchestration (`modify_doc_content`, `insert_doc_elements`,
`get_doc_content`) is translated from `gdocs/docs_tools.py`.  The primitive
request builders (`gdocs/docs_helpers.py`) and the operation managers
(`gdocs/managers.py`) are not part of the provided sources; where needed they
are modelled from the specification, and each such definition says so in its
doc comment.
-/

/-- Modelled from the spec: the `EditOperation` tagged variant of the data
model (spec section 3).  The request-builder module `gdocs/docs_helpers.py` is
absent from the sources; each builder constructs exactly one of these
primitive operations.  Range ends are exclusive.  `formatText` keeps the whole
style bundle; its end may be absent because the Python builder receives the
raw `format_end` value, which can be `None`. -/
inductive EditOperation where
  | insertText (index : Nat) (text : String)
  | deleteRange (start : Nat) (stop : Nat)
  | formatText (start : Nat) (stop : Option Nat) (bold italic underline : Option Bool)
      (font_size : Option Nat) (font_family : Option String)
  | findReplace (find : String) (replace : String) (matchCase : Bool)
  | insertTable (index : Nat) (rows : Nat) (columns : Nat)
  | insertImage (index : Nat) (uri : String) (width height : Option Nat)
  | insertPageBreak (index : Nat)
  | createBullets (start : Nat) (stop : Nat) (preset : String)
deriving DecidableEq, Repr

/-- Modelled from the spec: builder from the absent `gdocs/docs_helpers.py`;
constructs the `InsertText` primitive. -/
def create_insert_text_request (index : Nat) (text : String) : EditOperation :=
  EditOperation.insertText index text

/-- Modelled from the spec: builder from the absent `gdocs/docs_helpers.py`;
constructs the `DeleteRange` primitive. -/
def create_delete_range_request (start : Nat) (stop : Nat) : EditOperation :=
  EditOperation.deleteRange start stop

/-- The optional formatting parameters of the `edit_text` operation of
`modify_doc_content` (`gdocs/docs_tools.py`). -/
structure FormatParams where
  bold : Option Bool
  italic : Option Bool
  underline : Option Bool
  font_size : Option Nat
  font_family : Option String
deriving DecidableEq, Repr

/-- Modelled from the spec: builder from the absent `gdocs/docs_helpers.py`;
constructs the `FormatText` primitive carrying the style bundle. -/
def create_format_text_request (start : Nat) (stop : Option Nat) (f : FormatParams) :
    EditOperation :=
  EditOperation.formatText start stop f.bold f.italic f.underline f.font_size f.font_family

/-- Modelled from the spec: builder from the absent `gdocs/docs_helpers.py`;
constructs the `FindReplace` primitive. -/
def create_find_replace_request (find : String) (replace : String) (matchCase : Bool) :
    EditOperation :=
  EditOperation.findReplace find replace matchCase

/-- Modelled from the spec: builder from the absent `gdocs/docs_helpers.py`;
constructs the `InsertTable` primitive. -/
def create_insert_table_request (index : Nat) (rows : Nat) (columns : Nat) : EditOperation :=
  EditOperation.insertTable index rows columns

/-- Modelled from the spec: builder from the absent `gdocs/docs_helpers.py`;
constructs the `InsertImage` primitive. -/
def create_insert_image_request (index : Nat) (uri : String) (width height : Option Nat) :
    EditOperation :=
  EditOperation.insertImage index uri width height

/-- Modelled from the spec: builder from the absent `gdocs/docs_helpers.py`;
constructs the `InsertPageBreak` primitive. -/
def create_insert_page_break_request (index : Nat) : EditOperation :=
  EditOperation.insertPageBreak index

/-- Modelled from the spec: builder from the absent `gdocs/docs_helpers.py`;
constructs the `CreateBullets` (paragraph-bullet preset) primitive. -/
def create_bullet_list_request (start : Nat) (stop : Nat) (preset : String) : EditOperation :=
  EditOperation.createBullets start stop preset

/-- Python truthiness of the formatting-parameter tuple: the repeated
`any([bold is not None, italic is not None, underline is not None, font_size,
font_family])` test of `modify_doc_content` (`gdocs/docs_tools.py`,
lines 401/405/446).  `font_size` and `font_family` are tested for Python
truthiness (non-`None` and non-zero / non-empty). -/
def hasFormattingParams (f : FormatParams) : Bool :=
  f.bold.isSome || f.italic.isSome || f.underline.isSome ||
    (match f.font_size with
      | some n => n != 0
      | none => false) ||
    (match f.font_family with
      | some s => s != ""
      | none => false)

/-- The request batch built by the `edit_text` operation of
`modify_doc_content` (`gdocs/docs_tools.py`, lines 418-467): first the text
insertion/replacement requests, then the optional formatting request whose
range is recomputed from the text operation that ran. -/
def build_edit_text_requests (start_index : Nat) (end_index : Option Nat)
    (text : Option String) (f : FormatParams) : List EditOperation :=
  let textRequests : List EditOperation :=
    match text with
    | none => []
    | some t =>
      match end_index with
      | some e =>
        if e > start_index then
          if start_index = 0 then
            [create_insert_text_request 1 t,
             create_delete_range_request (1 + t.length) (e + t.length)]
          else
            [create_delete_range_request start_index e,
             create_insert_text_request start_index t]
        else
          [create_insert_text_request (if start_index = 0 then 1 else start_index) t]
      | none =>
        [create_insert_text_request (if start_index = 0 then 1 else start_index) t]
  let formatRequests : List EditOperation :=
    if hasFormattingParams f then
      let fmtRange : Nat × Option Nat :=
        match text with
        | some t =>
          (match end_index with
            | some e =>
              if e > start_index then
                (start_index, some (start_index + t.length))
              else
                ((if start_index = 0 then 1 else start_index),
                 some ((if start_index = 0 then 1 else start_index) + t.length))
            | none =>
              ((if start_index = 0 then 1 else start_index),
               some ((if start_index = 0 then 1 else start_index) + t.length)))
        | none => (start_index, end_index)
      let format_start : Nat := if fmtRange.1 = 0 then 1 else fmtRange.1
      let format_end : Option Nat :=
        match fmtRange.2 with
        | some fe => some (if fe ≤ format_start then format_start + 1 else fe)
        | none => none
      [create_format_text_request format_start format_end f]
    else []
  textRequests ++ formatRequests

/-- The index adjustment at the top of `insert_doc_elements`
(`gdocs/docs_tools.py`, lines 652-656): an insertion requested at index 0 is
redirected to index 1 to avoid the first section break. -/
def adjust_insert_index (index : Nat) : Nat :=
  if index = 0 then 1 else index

/-- The request batch built by the `text_elements` operation of
`insert_doc_elements` (`gdocs/docs_tools.py`, lines 659-693), applied to the
already-adjusted index.  Errors are the early returns / raised `ValueError`s
of that branch. -/
def build_text_elements_requests (index : Nat) (element_type : String)
    (rows columns : Option Nat) (list_type : Option String) (text : Option String) :
    Except String (List EditOperation) :=
  if element_type = "" then
    Except.error "'element_type' is required for text_elements operation"
  else if element_type = "table" then
    match rows, columns with
    | some r, some c =>
      if r = 0 || c = 0 then
        Except.error "'rows' and 'columns' parameters are required for table insertion."
      else
        Except.ok [create_insert_table_request index r c]
    | _, _ =>
      Except.error "'rows' and 'columns' parameters are required for table insertion."
  else if element_type = "list" then
    match list_type with
    | none => Except.error "'list_type' parameter is required for list insertion"
    | some lt =>
      if lt = "" then
        Except.error "'list_type' parameter is required for list insertion"
      else
        let t : String :=
          match text with
          | none => "List item"
          | some s => if s = "" then "List item" else s
        Except.ok [create_insert_text_request index (t ++ "\n"),
                   create_bullet_list_request index (index + t.length + 1) lt]
  else if element_type = "page_break" then
    Except.ok [create_insert_page_break_request index]
  else
    Except.error "Unsupported element type"

/-- The `text_elements` operation of `insert_doc_elements` at call level: the
caller-supplied index is first adjusted away from 0
(`gdocs/docs_tools.py`, lines 652-703). -/
def insert_text_elements_call (index : Nat) (element_type : String)
    (rows columns : Option Nat) (list_type : Option String) (text : Option String) :
    Except String (List EditOperation) :=
  build_text_elements_requests (adjust_insert_index index) element_type rows columns
    list_type text

/-- The request batch built by the `image` operation of `insert_doc_elements`
(`gdocs/docs_tools.py`, line 736), applied to the already-adjusted index and
the resolved image URI. -/
def build_image_requests (index : Nat) (uri : String) (width height : Option Nat) :
    List EditOperation :=
  [create_insert_image_request index uri width height]

/-- List-of-characters test: does `s` start with `pat`?  (Support for the
Python substring test `pat in s`.) -/
def listStartsWith : List Char → List Char → Bool
  | _, [] => true
  | [], _ :: _ => false
  | a :: s, b :: p => a == b && listStartsWith s p

/-- List-of-characters test: does `pat` occur contiguously in `s`?  (Support
for the Python substring test `pat in s`.) -/
def listContainsSeq : List Char → List Char → Bool
  | [], pat => pat.isEmpty
  | a :: s, pat => listStartsWith (a :: s) pat || listContainsSeq s pat

/-- The Python substring test `pat in s`, used by the boundary-retry check of
`insert_doc_elements` (`gdocs/docs_tools.py`, line 781). -/
def strContains (s pat : String) : Bool :=
  listContainsSeq s.data pat.data

/-- The boundary-error marker matched by `insert_doc_elements`
(`gdocs/docs_tools.py`, line 781): `"must be less than the end index" in
message`. -/
def BOUNDARY_MARKER : String := "must be less than the end index"

/-- Outcome of one `create_and_populate_table` attempt of the Table Operation
Manager.  Modelled from the spec: `gdocs/managers.py` is absent from the
sources; the manager returns a success flag, a message, and metadata with the
created table's row/column counts (spec section 4.4), and each attempt is an
independent service interaction. -/
structure AttemptResult where
  success : Bool
  message : String
  rows : Nat
  columns : Nat
deriving DecidableEq, Repr

/-- The `table` operation of `insert_doc_elements` from the first
`create_and_populate_table` attempt onward (`gdocs/docs_tools.py`,
lines 772-794): one attempt at `index`; if it fails and the failure message
contains the boundary marker, exactly one retry at `index - 1`; the final
user-facing string is built from the last attempt's outcome.  `svc i` is the
outcome of an attempt at index `i` (the manager itself is absent from the
sources and is abstracted as this oracle).  The list records the attempted
indices in order. -/
def create_table_flow (document_id : String) (svc : Nat → AttemptResult) (index : Nat) :
    List Nat × Bool × String :=
  let link : String := "https://docs.google.com/document/d/" ++ document_id ++ "/edit"
  let r1 := svc index
  let (attempts, r) :=
    if !r1.success && strContains r1.message BOUNDARY_MARKER then
      ([index, index - 1], svc (index - 1))
    else
      ([index], r1)
  if r.success then
    (attempts, true,
      "SUCCESS: " ++ r.message ++ ". Table: " ++ toString r.rows ++ "x" ++
        toString r.columns ++ ", Index: " ++ toString index ++ ". Link: " ++ link)
  else
    (attempts, false, "ERROR: " ++ r.message)

/-- Modelled from the spec: content semantics of the primitive operations over
the flat index space (spec sections 3 and 8) — the document service applying a
batch is external to the repository.  The document is the ordered sequence of
code units; `InsertText` splices text at its index, `DeleteRange` removes the
half-open range.  Styling operations leave the plain content unchanged.
(`FindReplace` rewrites occurrences service-side; it is not needed here and no
claim is settled against its content action.) -/
def applyOp (doc : List Char) : EditOperation → List Char
  | EditOperation.insertText i t => doc.take i ++ t.data ++ doc.drop i
  | EditOperation.deleteRange s e => doc.take s ++ doc.drop e
  | _ => doc

/-- Modelled from the spec: a batch is applied strictly in list order, each
operation against the index space as mutated by all prior operations in the
same batch (spec section 3). -/
def applyBatch (doc : List Char) (batch : List EditOperation) : List Char :=
  batch.foldl applyOp doc

/-- A node of the document tree walked by `get_doc_content`
(`gdocs/docs_tools.py`, lines 140-171).  A paragraph carries its
paragraph-elements, each with an optional text-run content string (`none`
models a paragraph element with no `textRun`/`content`).  A table carries its
rows; a row is a list of cells; a cell is a list of nested elements.  Any
other structural element (e.g. `sectionBreak`) carries no text. -/
inductive DocElement where
  | paragraph (runs : List (Option String))
  | table (rows : List (List (List DocElement)))
  | sectionBreak
deriving Repr

/-- The tab header format constant `TAB_HEADER_FORMAT` of `get_doc_content`
(`gdocs/docs_tools.py`, line 138). -/
def TAB_HEADER_FORMAT (tab_name : String) : String :=
  "\n--- TAB: " ++ tab_name ++ " ---\n"

/-- The inner paragraph loop of `extract_text_from_elements`
(`gdocs/docs_tools.py`, lines 153-157): concatenate every text-run content in
element order; runs without textual payload contribute nothing. -/
def runsText : List (Option String) → String
  | [] => ""
  | some c :: rs => c ++ runsText rs
  | none :: rs => runsText rs

/-- Python truthiness of `s.strip()` (used by `get_doc_content` only in
boolean contexts, `gdocs/docs_tools.py` lines 158/169/197/204): true exactly
when `s` contains a character that is not whitespace, i.e. when stripping the
surrounding whitespace leaves a non-empty string. -/
def hasVisibleText (s : String) : Bool :=
  s.data.any fun c => !c.isWhitespace

mutual

/-- The element loop of `extract_text_from_elements`
(`gdocs/docs_tools.py`, lines 149-170), producing the `text_lines` entries
contributed by a list of elements at the given recursion depth. -/
def extract_elems : List DocElement → Nat → List String
  | [], _ => []
  | DocElement.paragraph runs :: rest, depth =>
    (if hasVisibleText (runsText runs) then [runsText runs] else []) ++
      extract_elems rest depth
  | DocElement.table rows :: rest, depth =>
    extract_rows rows depth ++ extract_elems rest depth
  | DocElement.sectionBreak :: rest, depth => extract_elems rest depth
termination_by l _ => (sizeOf l, 0)

/-- The row loop of the table branch of `extract_text_from_elements`
(`gdocs/docs_tools.py`, lines 164-170). -/
def extract_rows : List (List (List DocElement)) → Nat → List String
  | [], _ => []
  | row :: rest, depth => extract_cells row depth ++ extract_rows rest depth
termination_by l _ => (sizeOf l, 0)

/-- The cell loop of the table branch of `extract_text_from_elements`
(`gdocs/docs_tools.py`, lines 166-170): recurse into the cell's content at
`depth + 1` and keep the result when it is not pure whitespace. -/
def extract_cells : List (List DocElement) → Nat → List String
  | [], _ => []
  | cell :: rest, depth =>
    (if hasVisibleText (extract_text_from_elements cell none (depth + 1)) then
      [extract_text_from_elements cell none (depth + 1)]
     else []) ++ extract_cells rest depth
termination_by l _ => (sizeOf l, 0)

/-- `extract_text_from_elements` of `get_doc_content`
(`gdocs/docs_tools.py`, lines 140-171): depths beyond 5 are truncated to the
empty string; otherwise the tab header line is emitted first when `tab_name`
is Python-truthy — present and non-empty (`if tab_name:`, line 146) — and the
collected lines are joined with the empty separator. -/
def extract_text_from_elements (elements : List DocElement) (tab_name : Option String)
    (depth : Nat) : String :=
  if depth > 5 then ""
  else
    String.join
      ((match tab_name with
        | some n => if n = "" then [] else [TAB_HEADER_FORMAT n]
        | none => []) ++ extract_elems elements depth)
termination_by (sizeOf elements, 1)

end

/-- A document tab as walked by `get_doc_content`
(`gdocs/docs_tools.py`, lines 173-190): an optional `documentTab` payload with
an optional title (defaulted to `"Untitled Tab"` when absent) and a body
content list, plus nested child tabs. -/
inductive Tab where
  | mk (documentTab : Option (Option String × List DocElement)) (childTabs : List Tab)
deriving Repr

/-- The Python string repetition `s * n` used for tab-title indentation
(`gdocs/docs_tools.py`, line 181). -/
def strRepeat (s : String) (n : Nat) : String :=
  String.join (List.replicate n s)

mutual

/-- `process_tab_hierarchy` of `get_doc_content`
(`gdocs/docs_tools.py`, lines 173-190): when a `documentTab` payload is
present, its body is extracted with a tab header whose title is indented four
spaces per nesting level below the top level; child tabs are then processed
depth-first at `level + 1`. -/
def process_tab_hierarchy : Tab → Nat → String
  | Tab.mk documentTab childTabs, level =>
    (match documentTab with
      | none => ""
      | some (title, body) =>
        let t0 := title.getD "Untitled Tab"
        let tab_title := if level > 0 then strRepeat "    " level ++ t0 else t0
        extract_text_from_elements body (some tab_title) 0) ++
    process_child_tabs childTabs (level + 1)
termination_by t _ => (sizeOf t, 1)

/-- The child-tab loop of `process_tab_hierarchy`
(`gdocs/docs_tools.py`, lines 186-188). -/
def process_child_tabs : List Tab → Nat → String
  | [], _ => ""
  | t :: ts, level => process_tab_hierarchy t level ++ process_child_tabs ts level
termination_by l _ => (sizeOf l, 0)

end

/-- The per-tab loop of the native-document branch of `get_doc_content`
(`gdocs/docs_tools.py`, lines 201-205): each top-level tab contributes its
processed text when it is not pure whitespace. -/
def tabs_blocks : List Tab → List String
  | [] => []
  | t :: ts =>
    (if hasVisibleText (process_tab_hierarchy t 0) then [process_tab_hierarchy t 0]
     else []) ++ tabs_blocks ts

/-- The native-document body text assembled by `get_doc_content`
(`gdocs/docs_tools.py`, lines 192-207): the main body's extracted text first
(dropped when pure whitespace), then each top-level tab's block, joined with
the empty separator. -/
def doc_body_text (body : List DocElement) (tabs : List Tab) : String :=
  String.join
    ((if hasVisibleText (extract_text_from_elements body none 0) then
        [extract_text_from_elements body none 0]
      else []) ++ tabs_blocks tabs)

/-- A table-in-cell chain of the given nesting depth with a single
non-whitespace paragraph at the bottom; used to exercise the depth bound of
`extract_text_from_elements` at every depth. -/
def deepNest : Nat → DocElement
  | 0 => DocElement.paragraph [some "x"]
  | n + 1 => DocElement.table [[[deepNest n]]]

/-- A tab chain nested `k` levels deep whose only payload is the innermost
tab: title `"T"`, body one paragraph `"p"`; used to exercise the per-level
tab-title indentation of `process_tab_hierarchy` at every depth. -/
def deepTab : Nat → Tab
  | 0 => Tab.mk (some (some "T", [DocElement.paragraph [some "p"]])) []
  | k + 1 => Tab.mk none [deepTab k]

/-- Is this operation the formatting primitive?  (Used to single out the
`updateTextStyle` request inside a built batch.) -/
def isFormatOp : EditOperation → Bool
  | EditOperation.formatText .. => true
  | _ => false

/-- The document position an operation is anchored at: the insertion index of
an insert-kind operation, or the range start of a range-kind operation.
(`FindReplace` addresses no position and is reported as 0.) -/
def opAnchorIndex : EditOperation → Nat
  | EditOperation.insertText i _ => i
  | EditOperation.deleteRange a _ => a
  | EditOperation.formatText a .. => a
  | EditOperation.findReplace .. => 0
  | EditOperation.insertTable i _ _ => i
  | EditOperation.insertImage i _ _ _ => i
  | EditOperation.insertPageBreak i => i
  | EditOperation.createBullets a _ _ => a

/-- A concrete attempt oracle: the attempt at index 5 fails with a
boundary-style message (it contains the marker substring), every other
attempt fails with an unrelated message. -/
def svcBoundaryThenOther : Nat → AttemptResult := fun i =>
  if i = 5 then
    { success := false,
      message := "Index 5 must be less than the end index of the segment, 400",
      rows := 0, columns := 0 }
  else
    { success := false,
      message := "table creation failed: invalid table data",
      rows := 0, columns := 0 }

/-- C5: for a document (a sequence of code units) and a replacement of the
range `[start_old, end_old)` with `start_old > 0` by new text `t`, the
two-step index-0 workaround — insert the new text before the range, then
delete the original range shifted forward by `len(t)` — produces the same
final content as the direct replace (delete `[start_old, end_old)`, then
insert `t` at `start_old`): the two compiler branches of `modify_doc_content`
are observationally equivalent. -/
theorem c5_two_step_replace_equiv (d : List Char) (start_old end_old : Nat) (t : String)
    (hpos : 0 < start_old) (hle : start_old ≤ end_old) (hlen : start_old ≤ d.length) :
    applyBatch d [create_insert_text_request start_old t,
      create_delete_range_request (start_old + t.length) (end_old + t.length)] =
    applyBatch d [create_delete_range_request start_old end_old,
      create_insert_text_request start_old t] := by
  clear hpos
  simp only [applyBatch, applyOp, create_insert_text_request, create_delete_range_request,
    List.foldl]
  have hA : (d.take start_old).length = start_old := by
    simp [List.length_take, Nat.min_eq_left hlen]
  have hAB : (d.take start_old ++ t.data).length = start_old + t.length := by
    simp [List.length_append, hA]
  rw [List.take_left' hAB, List.take_left' hA, List.drop_left' hA,
    List.drop_append_eq_append_drop,
    List.drop_eq_nil_of_le (by rw [hAB]; omega :
      (d.take start_old ++ t.data).length ≤ end_old + t.length),
    List.drop_drop, List.nil_append, hAB]
  have harith : start_old + (end_old + t.length - (start_old + t.length)) = end_old := by
    omega
  rw [harith]

/-- Witness for C5 at the document `"abcdef"`, replacing `[2, 4)` by `"XY"`. -/
theorem c5_two_step_replace_equiv_witness :
    0 < 2 ∧ 2 ≤ 4 ∧ 2 ≤ ("abcdef".data).length ∧
    applyBatch "abcdef".data [create_insert_text_request 2 "XY",
      create_delete_range_request (2 + "XY".length) (4 + "XY".length)] =
    applyBatch "abcdef".data [create_delete_range_request 2 4,
      create_insert_text_request 2 "XY"] :=
  ⟨by decide, by decide, by decide,
   c5_two_step_replace_equiv "abcdef".data 2 4 "XY" (by decide) (by decide) (by decide)⟩

/-- Counterexample to C1 as stated: an `edit_text` call with text `"hi"` and
the non-degenerate range `[0, 5)` that additionally requests bold formatting
builds a batch that is not exactly the two-element insert/delete list (a
`FormatText` request is appended). -/
theorem c1_exact_batch_counterexample :
    build_edit_text_requests 0 (some 5) (some "hi")
      { bold := some true, italic := none, underline := none,
        font_size := none, font_family := none } ≠
    [create_insert_text_request 1 "hi",
     create_delete_range_request (1 + "hi".length) (5 + "hi".length)] := by
  decide

/-- C1 (amended): for an `edit_text` call with text `t` and a non-degenerate
range starting at 0 and no formatting parameters, the built batch is exactly
`[InsertText 1 t, DeleteRange (1+len t) (end+len t)]`; and for every such
call, formatting requested or not, no delete operation in the batch has a
range that includes position 0 (every delete range starts strictly above 0). -/
theorem c1_index0_replace_batch (e : Nat) (t : String) (f : FormatParams) (he : 0 < e) :
    (hasFormattingParams f = false →
      build_edit_text_requests 0 (some e) (some t) f =
        [create_insert_text_request 1 t,
         create_delete_range_request (1 + t.length) (e + t.length)]) ∧
    (∀ a b, EditOperation.deleteRange a b ∈ build_edit_text_requests 0 (some e) (some t) f →
      0 < a) := by
  constructor
  · intro hf
    simp [build_edit_text_requests, he, hf]
  · intro a b hmem
    simp [build_edit_text_requests, he, create_insert_text_request,
      create_delete_range_request, create_format_text_request] at hmem
    omega

/-- Witness for C1 (amended) at text `"hi"`, range `[0, 5)`, no
formatting. -/
theorem c1_index0_replace_batch_witness :
    0 < 5 ∧
    build_edit_text_requests 0 (some 5) (some "hi")
      { bold := none, italic := none, underline := none,
        font_size := none, font_family := none } =
      [create_insert_text_request 1 "hi",
       create_delete_range_request (1 + "hi".length) (5 + "hi".length)] :=
  ⟨by decide,
   (c1_index0_replace_batch 5 "hi"
      { bold := none, italic := none, underline := none,
        font_size := none, font_family := none } (by decide)).1 (by decide)⟩

/-- Counterexample to C7 as stated: an `edit_text` call with text `"hi"` and
the non-degenerate range `[2, 5)` that additionally requests bold formatting
builds a batch that is not exactly the two-element delete/insert list. -/
theorem c7_exact_batch_counterexample :
    build_edit_text_requests 2 (some 5) (some "hi")
      { bold := some true, italic := none, underline := none,
        font_size := none, font_family := none } ≠
    [create_delete_range_request 2 5, create_insert_text_request 2 "hi"] := by
  decide

/-- C7 (amended): for an `edit_text` call with text `t`, a non-degenerate
range with `start_index > 0`, and no formatting parameters, the built batch
is exactly `[DeleteRange start end, InsertText start t]` in that order — the
delete precedes the insert and both address the same boundary with no
index-shift correction. -/
theorem c7_ordinary_replace_batch (s e : Nat) (t : String) (f : FormatParams)
    (hs : 0 < s) (hse : s < e) (hf : hasFormattingParams f = false) :
    build_edit_text_requests s (some e) (some t) f =
      [create_delete_range_request s e, create_insert_text_request s t] := by
  simp [build_edit_text_requests, hse, Nat.pos_iff_ne_zero.mp hs, hf]

/-- Witness for C7 (amended) at text `"hi"`, range `[2, 5)`, no formatting. -/
theorem c7_ordinary_replace_batch_witness :
    0 < 2 ∧ 2 < 5 ∧
    build_edit_text_requests 2 (some 5) (some "hi")
      { bold := none, italic := none, underline := none,
        font_size := none, font_family := none } =
      [create_delete_range_request 2 5, create_insert_text_request 2 "hi"] :=
  ⟨by decide, by decide,
   c7_ordinary_replace_batch 2 5 "hi"
     { bold := none, italic := none, underline := none,
       font_size := none, font_family := none } (by decide) (by decide) (by decide)⟩

/-- C4: for an `edit_text` call that both writes text and applies formatting,
the `FormatText` range of the built batch is derived from the actual final
range of the new text: after a replace (`end_index > start_index`) the
computed range is `[start_index, start_index + len t)`; after an insert it is
`[actual_index, actual_index + len t)` with `actual_index = 1` when
`start_index = 0`; a computed range starting at 0 is moved to start at 1, and
a degenerate computed range (`end ≤ start`) is widened to end one unit after
its start. -/
theorem c4_format_range (s : Nat) (e? : Option Nat) (t : String) (f : FormatParams)
    (hf : hasFormattingParams f = true) :
    (build_edit_text_requests s e? (some t) f).filter isFormatOp =
      [create_format_text_request
        (if s = 0 then 1 else s)
        (some
          (let fs : Nat := if s = 0 then 1 else s
           let fe : Nat :=
             match e? with
             | some e => if s < e then s + t.length else fs + t.length
             | none => fs + t.length
           if fe ≤ fs then fs + 1 else fe))
        f] := by
  cases e? with
  | none =>
    by_cases hs : s = 0 <;>
      simp [build_edit_text_requests, hf, hs, isFormatOp, create_insert_text_request,
        create_format_text_request, List.filter]
  | some e =>
    by_cases hs : s = 0
    · subst hs
      by_cases hse : 0 < e <;>
        simp [build_edit_text_requests, hf, hse, isFormatOp, create_insert_text_request,
          create_delete_range_request, create_format_text_request, List.filter]
    · by_cases hse : s < e <;>
        simp [build_edit_text_requests, hf, hs, hse, isFormatOp, create_insert_text_request,
          create_delete_range_request, create_format_text_request, List.filter]

/-- Witness for C4: replacing `[5, 9)` by `"hi"` with bold formatting yields
the format request over `[5, 5 + 2)`. -/
theorem c4_format_range_witness :
    hasFormattingParams
      { bold := some true, italic := none, underline := none,
        font_size := none, font_family := none } = true ∧
    (build_edit_text_requests 5 (some 9) (some "hi")
      { bold := some true, italic := none, underline := none,
        font_size := none, font_family := none }).filter isFormatOp =
      [create_format_text_request 5 (some 7)
        { bold := some true, italic := none, underline := none,
          font_size := none, font_family := none }] := by
  refine ⟨by decide, ?_⟩
  rw [c4_format_range 5 (some 9) "hi"
    { bold := some true, italic := none, underline := none,
      font_size := none, font_family := none } (by decide)]
  decide

/-- Counterexample to C3 as stated: a list insertion requested at index 0
builds its operations at index 1 (the index-0 redirect), not at the
caller-supplied index. -/
theorem c3_list_batch_counterexample :
    insert_text_elements_call 0 "list" none none (some "UNORDERED") (some "A") ≠
      Except.ok [create_insert_text_request 0 ("A" ++ "\n"),
        create_bullet_list_request 0 (0 + "A".length + 1) "UNORDERED"] := by
  have h : insert_text_elements_call 0 "list" none none (some "UNORDERED") (some "A") =
      Except.ok [create_insert_text_request 1 ("A" ++ "\n"),
        create_bullet_list_request 1 (1 + "A".length + 1) "UNORDERED"] := rfl
  rw [h]
  simp [create_insert_text_request, create_bullet_list_request]

/-- C3 (amended): for a list insertion of non-empty text `t` at index
`i ≥ 1`, the built batch is exactly `[InsertText i (t ++ "\n"),
CreateBullets i (i + len t + 1) preset]`, so the styled range has length
`len t + 1`, covering the trailing newline; and in general (index 0
redirected to 1, missing or empty text defaulted to `"List item"`) every
successfully built list batch has this very shape for the effective index and
effective text. -/
theorem c3_list_insertion_batch :
    (∀ (i : Nat) (lt t : String), 0 < i → lt ≠ "" → t ≠ "" →
      insert_text_elements_call i "list" none none (some lt) (some t) =
        Except.ok [create_insert_text_request i (t ++ "\n"),
          create_bullet_list_request i (i + t.length + 1) lt]) ∧
    (∀ (i : Nat) (lt : String) (tx : Option String) (reqs : List EditOperation),
      insert_text_elements_call i "list" none none (some lt) tx = Except.ok reqs →
      ∃ s : String, reqs =
        [create_insert_text_request (adjust_insert_index i) (s ++ "\n"),
         create_bullet_list_request (adjust_insert_index i)
           (adjust_insert_index i + s.length + 1) lt]) := by
  constructor
  · intro i lt t hi hlt ht
    simp [insert_text_elements_call, adjust_insert_index, build_text_elements_requests,
      Nat.pos_iff_ne_zero.mp hi, hlt, ht]
  · intro i lt tx reqs h
    simp only [insert_text_elements_call, build_text_elements_requests] at h
    rcases tx with _ | s0
    · by_cases hlt : lt = "" <;> simp [hlt] at h
      exact ⟨"List item", h.symm⟩
    · by_cases hlt : lt = "" <;> simp [hlt] at h
      by_cases hs0 : s0 = "" <;> simp [hs0] at h
      · exact ⟨"List item", h.symm⟩
      · exact ⟨s0, h.symm⟩

/-- Witness for C3 (amended) at the spec's scenario: list item `"Buy milk"`
(length 9) at index 20 yields `[insert(20, "Buy milk\n"),
createBullets(20, 30)]`. -/
theorem c3_list_insertion_batch_witness :
    0 < 20 ∧
    insert_text_elements_call 20 "list" none none (some "UNORDERED") (some "Buy milk") =
      Except.ok [create_insert_text_request 20 ("Buy milk" ++ "\n"),
        create_bullet_list_request 20 (20 + "Buy milk".length + 1) "UNORDERED"] :=
  ⟨by decide,
   c3_list_insertion_batch.1 20 "UNORDERED" "Buy milk" (by decide) (by decide) (by decide)⟩

/-- Counterexample to C2 as stated: with an attempt oracle whose attempt at
index 5 fails with a boundary message and whose retry at index 4 fails with a
different message, the surfaced terminal error carries the retry's message,
not the original boundary message. -/
theorem c2_retry_message_counterexample :
    (svcBoundaryThenOther 5).success = false ∧
    strContains (svcBoundaryThenOther 5).message BOUNDARY_MARKER = true ∧
    (svcBoundaryThenOther 4).success = false ∧
    (create_table_flow "doc1" svcBoundaryThenOther 5).2.2 ≠
      "ERROR: " ++ (svcBoundaryThenOther 5).message := by
  decide

/-- C2 (amended): for a table-insertion call whose first
`create_and_populate_table` attempt at index `i` fails with a message
containing the boundary marker, exactly one retry is issued at `i - 1` (the
attempted indices are exactly `[i, i - 1]`, so no third attempt is made); if
the retry also fails, the call returns a terminal error carrying the retry's
failure message. -/
theorem c2_boundary_retry (doc : String) (svc : Nat → AttemptResult) (i : Nat)
    (hi : 0 < i) (h1 : (svc i).success = false)
    (hb : strContains (svc i).message BOUNDARY_MARKER = true) :
    (create_table_flow doc svc i).1 = [i, i - 1] ∧
    ((svc (i - 1)).success = false →
      (create_table_flow doc svc i).2.2 = "ERROR: " ++ (svc (i - 1)).message) := by
  clear hi
  constructor
  · cases h2 : (svc (i - 1)).success <;> simp [create_table_flow, h1, hb, h2]
  · intro h2
    simp [create_table_flow, h1, hb, h2]

/-- Witness for C2 (amended) at the concrete oracle `svcBoundaryThenOther`
and index 5. -/
theorem c2_boundary_retry_witness :
    0 < 5 ∧
    (create_table_flow "doc1" svcBoundaryThenOther 5).1 = [5, 5 - 1] ∧
    (create_table_flow "doc1" svcBoundaryThenOther 5).2.2 =
      "ERROR: " ++ (svcBoundaryThenOther (5 - 1)).message :=
  ⟨by decide,
   (c2_boundary_retry "doc1" svcBoundaryThenOther 5 (by decide) (by decide) (by decide)).1,
   (c2_boundary_retry "doc1" svcBoundaryThenOther 5 (by decide) (by decide) (by decide)).2
     (by decide)⟩

/-- C8: every pure insertion requested at position 0 is redirected to
position 1: an `edit_text` call with text and no non-degenerate range at
`start_index = 0` anchors every built operation at index 1; a `text_elements`
call of `insert_doc_elements` at index 0 anchors every built operation at
index 1; an `image` call at index 0 builds its insert at index 1; and a
`table` call at index 0 issues its first creation attempt at index 1. -/
theorem c8_index0_redirect :
    (∀ (e? : Option Nat) (t : String) (f : FormatParams),
      (e? = none ∨ e? = some 0) →
      ∀ op ∈ build_edit_text_requests 0 e? (some t) f, opAnchorIndex op = 1) ∧
    (∀ (et : String) (r c : Option Nat) (lt : Option String) (tx : Option String)
        (reqs : List EditOperation),
      insert_text_elements_call 0 et r c lt tx = Except.ok reqs →
      ∀ op ∈ reqs, opAnchorIndex op = 1) ∧
    (∀ (uri : String) (w h : Option Nat),
      ∀ op ∈ build_image_requests (adjust_insert_index 0) uri w h, opAnchorIndex op = 1) ∧
    (∀ (doc : String) (svc : Nat → AttemptResult),
      (create_table_flow doc svc (adjust_insert_index 0)).1.head? = some 1) := by
  refine ⟨?_, ?_, ?_, ?_⟩
  · rintro e? t f (rfl | rfl) op hop <;>
      simp [build_edit_text_requests, create_insert_text_request,
        create_format_text_request] at hop <;>
      rcases hop with rfl | ⟨-, rfl⟩ <;> simp [opAnchorIndex]
  · intro et r c lt tx reqs h op hop
    replace h : build_text_elements_requests 1 et r c lt tx = Except.ok reqs := h
    unfold build_text_elements_requests at h
    split at h
    · simp at h
    · split at h
      · rcases r with _ | r0
        · simp at h
        · rcases c with _ | c0
          · simp at h
          · simp only [] at h
            split at h
            · simp at h
            · obtain rfl := Except.ok.inj h
              simp [create_insert_table_request] at hop
              subst hop
              rfl
      · split at h
        · rcases lt with _ | lt0
          · simp at h
          · simp only [] at h
            split at h
            · simp at h
            · obtain rfl := Except.ok.inj h
              simp [create_insert_text_request, create_bullet_list_request] at hop
              rcases hop with rfl | rfl <;> rfl
        · split at h
          · obtain rfl := Except.ok.inj h
            simp [create_insert_page_break_request] at hop
            subst hop
            rfl
          · simp at h
  · intro uri w h op hop
    simp [build_image_requests, adjust_insert_index, create_insert_image_request] at hop
    subst hop
    rfl
  · intro doc svc
    by_cases hb : ((svc 1).success = false ∧
        strContains (svc 1).message BOUNDARY_MARKER = true) <;>
      simp [create_table_flow, adjust_insert_index, hb] <;> split <;> simp

/-- Witness for C8: each conjunct applied at a concrete index-0 call. -/
theorem c8_index0_redirect_witness :
    opAnchorIndex (create_insert_text_request 1 "hi") = 1 ∧
    opAnchorIndex (create_insert_page_break_request 1) = 1 ∧
    opAnchorIndex (create_insert_image_request 1 "https://img.example/a.png" none none) = 1 ∧
    (create_table_flow "doc1" svcBoundaryThenOther (adjust_insert_index 0)).1.head? =
      some 1 :=
  ⟨c8_index0_redirect.1 (some 0) "hi"
      { bold := none, italic := none, underline := none,
        font_size := none, font_family := none } (Or.inr rfl)
      (create_insert_text_request 1 "hi") (by decide),
   c8_index0_redirect.2.1 "page_break" none none none none
      [create_insert_page_break_request 1] rfl
      (create_insert_page_break_request 1) (by decide),
   c8_index0_redirect.2.2.1 "https://img.example/a.png" none none
      (create_insert_image_request 1 "https://img.example/a.png" none none) (by decide),
   c8_index0_redirect.2.2.2 "doc1" svcBoundaryThenOther⟩

/-- C6: the text-extraction walk of `get_doc_content` is depth-bounded and
total: any extraction started at depth greater than 5 is truncated to the
empty string, and on a table-in-cell chain of arbitrary nesting depth `n` the
walk terminates with the bottom paragraph's text exactly when the paragraph
sits within the depth cap (`n + d ≤ 5` from starting depth `d`), and with the
empty string (the branch truncated, not a failure) beyond it. -/
theorem c6_depth_bound :
    (∀ (es : List DocElement) (tn : Option String) (d : Nat), 5 < d →
      extract_text_from_elements es tn d = "") ∧
    (∀ (n d : Nat), extract_text_from_elements [deepNest n] none d =
      if n + d ≤ 5 then "x" else "") := by
  constructor
  · intro es tn d h
    rw [extract_text_from_elements.eq_def, if_pos h]
  · intro n
    induction n with
    | zero =>
      intro d
      by_cases hd : 5 < d
      · rw [extract_text_from_elements.eq_def, if_pos hd, if_neg (by omega)]
      · rw [extract_text_from_elements.eq_def, if_neg hd, if_pos (by omega)]
        simp [deepNest, extract_elems, runsText, String.join,
          show hasVisibleText "x" = true from by decide]
    | succ n ih =>
      intro d
      by_cases hd : 5 < d
      · rw [extract_text_from_elements.eq_def, if_pos hd, if_neg (by omega)]
      · rw [extract_text_from_elements.eq_def, if_neg hd]
        simp only [deepNest, extract_elems, extract_rows, extract_cells, ih (d + 1),
          List.append_nil, List.nil_append]
        by_cases hnd : n + (d + 1) ≤ 5
        · rw [if_pos hnd, if_pos (by omega : n + 1 + d ≤ 5)]
          simp [String.join, show hasVisibleText "x" = true from by decide]
        · rw [if_neg hnd, if_neg (by omega : ¬(n + 1 + d ≤ 5))]
          simp [String.join, show hasVisibleText "" = false from by decide]

/-- Witness for C6: truncation at depth 6, a 6-deep chain truncated to the
empty string, a 5-deep chain fully extracted. -/
theorem c6_depth_bound_witness :
    5 < 6 ∧ extract_text_from_elements [] none 6 = "" ∧
    extract_text_from_elements [deepNest 6] none 0 = "" ∧
    extract_text_from_elements [deepNest 5] none 0 = "x" :=
  ⟨by decide, c6_depth_bound.1 [] none 6 (by decide),
   by have h := c6_depth_bound.2 6 0; simpa using h,
   by have h := c6_depth_bound.2 5 0; simpa using h⟩

/-- The visible-text test distributes over string concatenation. -/
theorem hasVisibleText_append (a b : String) :
    hasVisibleText (a ++ b) = (hasVisibleText a || hasVisibleText b) := by
  simp [hasVisibleText]

/-- A string with a non-empty left part of a concatenation is non-empty. -/
theorem append_left_ne_empty (a b : String) (ha : a ≠ "") : a ++ b ≠ "" := by
  intro hc
  have h2 : (a ++ b).data = ("" : String).data := congrArg String.data hc
  simp at h2
  exact ha (String.ext h2.1)

/-- A string with a non-empty right part of a concatenation is non-empty. -/
theorem append_right_ne_empty (a b : String) (hb : b ≠ "") : a ++ b ≠ "" := by
  intro hc
  have h2 : (a ++ b).data = ("" : String).data := congrArg String.data hc
  simp at h2
  exact hb (String.ext h2.2)

/-- Counterexample to C9 as stated: a top-level tab whose title is present
but empty contributes its paragraph text alone — the Python-truthiness test
`if tab_name:` skips the header — so its block is not prefixed by a generated
tab header line. -/
theorem c9_empty_title_counterexample :
    process_tab_hierarchy
      (Tab.mk (some (some "", [DocElement.paragraph [some "Hello\n"]])) []) 0 =
      "Hello\n" ∧
    ("Hello\n" : String) ≠ TAB_HEADER_FORMAT "" ++ "Hello\n" := by
  constructor
  · rw [process_tab_hierarchy.eq_def]
    simp [process_child_tabs.eq_def, extract_text_from_elements.eq_def, extract_elems,
      runsText, String.join, show hasVisibleText "Hello\n" = true from by decide]
  · decide

/-- C9 (amended): `get_doc_content` emits the main body first, then each
top-level tab and its children depth-first; a tab with a computed header
title that is non-empty contributes a block prefixed by a generated header
line — always the case for nested tabs, whose titles carry the four-space
indentation prefix, and for top-level tabs with non-empty titles.  On a
document with one non-empty-titled tab containing one child tab, each with
one paragraph, this yields the main text followed by two labeled blocks, the
child's title indented one level (four spaces) deeper than the parent's; and
in general a tab nested `k` levels deep from starting level `level` has its
title indented `level + k` levels, four spaces per level. -/
theorem c9_tab_walk :
    (∀ pm t1 t2 p1 p2 : String,
      hasVisibleText pm = true → hasVisibleText p1 = true → hasVisibleText p2 = true →
      t1 ≠ "" →
      doc_body_text [DocElement.paragraph [some pm]]
        [Tab.mk (some (some t1, [DocElement.paragraph [some p1]]))
          [Tab.mk (some (some t2, [DocElement.paragraph [some p2]])) []]] =
      pm ++ ("\n--- TAB: " ++ t1 ++ " ---\n" ++ p1) ++
        ("\n--- TAB: " ++ ("    " ++ t2) ++ " ---\n" ++ p2)) ∧
    (∀ k level : Nat,
      process_tab_hierarchy (deepTab k) level =
        TAB_HEADER_FORMAT (strRepeat "    " (level + k) ++ "T") ++ "p") := by
  constructor
  · intro pm t1 t2 p1 p2 hpm hp1 hp2 ht1
    have hpara : ∀ s title : String, hasVisibleText s = true → title ≠ "" →
        extract_text_from_elements [DocElement.paragraph [some s]] (some title) 0 =
          TAB_HEADER_FORMAT title ++ s := by
      intro s title h ht
      rw [extract_text_from_elements.eq_def]
      simp [extract_elems, runsText, String.join, h, ht]
    have hpara_none : ∀ s : String, hasVisibleText s = true →
        extract_text_from_elements [DocElement.paragraph [some s]] none 0 = s := by
      intro s h
      rw [extract_text_from_elements.eq_def]
      simp [extract_elems, runsText, String.join, h]
    have hchild_nil : ∀ lv, process_child_tabs [] lv = "" := by
      intro lv
      rw [process_child_tabs.eq_def]
    have htab2 : process_tab_hierarchy
        (Tab.mk (some (some t2, [DocElement.paragraph [some p2]])) []) 1 =
        TAB_HEADER_FORMAT ("    " ++ t2) ++ p2 := by
      rw [process_tab_hierarchy.eq_def]
      simp [hchild_nil, strRepeat, String.join,
        hpara p2 ("    " ++ t2) hp2 (append_left_ne_empty "    " t2 (by decide))]
    have htab1 : process_tab_hierarchy
        (Tab.mk (some (some t1, [DocElement.paragraph [some p1]]))
          [Tab.mk (some (some t2, [DocElement.paragraph [some p2]])) []]) 0 =
        (TAB_HEADER_FORMAT t1 ++ p1) ++ (TAB_HEADER_FORMAT ("    " ++ t2) ++ p2) := by
      rw [process_tab_hierarchy.eq_def]
      simp [process_child_tabs.eq_def, hchild_nil, htab2, hpara p1 t1 hp1 ht1]
    have hv1 : hasVisibleText
        ((TAB_HEADER_FORMAT t1 ++ p1) ++
          (TAB_HEADER_FORMAT ("    " ++ t2) ++ p2)) = true := by
      simp [hasVisibleText_append, TAB_HEADER_FORMAT,
        show hasVisibleText "\n--- TAB: " = true from by decide]
    rw [doc_body_text]
    simp only [tabs_blocks, htab1, hpara_none pm hpm, hv1, hpm]
    simp [String.join, TAB_HEADER_FORMAT, String.append_assoc, hpm]
  · intro k
    induction k with
    | zero =>
      intro level
      rw [process_tab_hierarchy.eq_def]
      by_cases hl : level > 0
      · simp only [deepTab]
        simp [hl, process_child_tabs.eq_def, extract_text_from_elements.eq_def,
          extract_elems, runsText, String.join,
          append_right_ne_empty (strRepeat "    " level) "T" (by decide),
          show hasVisibleText "p" = true from by decide]
      · have hl0 : level = 0 := by omega
        subst hl0
        simp only [deepTab]
        simp [process_child_tabs.eq_def, extract_text_from_elements.eq_def,
          extract_elems, runsText, String.join, strRepeat,
          show hasVisibleText "p" = true from by decide]
    | succ k ih =>
      intro level
      rw [process_tab_hierarchy.eq_def]
      simp only [deepTab]
      simp [process_child_tabs.eq_def, ih (level + 1),
        show level + 1 + k = level + (k + 1) from by omega]

/-- Witness for C9 (amended): the concrete two-tab document with non-empty
titles and the 2-deep tab chain, evaluated to literal strings. -/
theorem c9_tab_walk_witness :
    hasVisibleText "Main\n" = true ∧ ("T1" : String) ≠ "" ∧
    doc_body_text [DocElement.paragraph [some "Main\n"]]
      [Tab.mk (some (some "T1", [DocElement.paragraph [some "Hello\n"]]))
        [Tab.mk (some (some "T2", [DocElement.paragraph [some "World\n"]])) []]] =
      "Main\n\n--- TAB: T1 ---\nHello\n\n--- TAB:     T2 ---\nWorld\n" ∧
    process_tab_hierarchy (deepTab 2) 0 = "\n--- TAB:         T ---\np" := by
  refine ⟨by decide, by decide, ?_, ?_⟩
  · rw [c9_tab_walk.1 "Main\n" "T1" "T2" "Hello\n" "World\n"
      (by decide) (by decide) (by decide) (by decide)]
    rfl
  · rw [c9_tab_walk.2 2 0]
    rfl

/-- C10: blank content is silently dropped by `get_doc_content`: a paragraph
whose concatenated run text has no visible character contributes nothing, a
table cell whose recursively extracted text has no visible character is
omitted, a main body whose extracted text has no visible character
contributes no block, and a tab whose processed text has no visible character
contributes no block. -/
theorem c10_blank_dropped :
    (∀ (runs : List (Option String)) (rest : List DocElement) (tn : Option String) (d : Nat),
      hasVisibleText (runsText runs) = false →
      extract_text_from_elements (DocElement.paragraph runs :: rest) tn d =
        extract_text_from_elements rest tn d) ∧
    (∀ (cell : List DocElement) (cells : List (List DocElement)) (d : Nat),
      hasVisibleText (extract_text_from_elements cell none (d + 1)) = false →
      extract_cells (cell :: cells) d = extract_cells cells d) ∧
    (∀ (body : List DocElement) (tabs : List Tab),
      hasVisibleText (extract_text_from_elements body none 0) = false →
      doc_body_text body tabs = String.join (tabs_blocks tabs)) ∧
    (∀ (body : List DocElement) (t : Tab) (tabs : List Tab),
      hasVisibleText (process_tab_hierarchy t 0) = false →
      doc_body_text body (t :: tabs) = doc_body_text body tabs) := by
  refine ⟨?_, ?_, ?_, ?_⟩
  · intro runs rest tn d h
    rw [extract_text_from_elements.eq_def, extract_text_from_elements.eq_def]
    by_cases hd : 5 < d
    · simp [hd]
    · simp [hd, extract_elems, h]
  · intro cell cells d h
    rw [extract_cells.eq_def]
    simp [h]
  · intro body tabs h
    rw [doc_body_text]
    simp [h]
  · intro body t tabs h
    rw [doc_body_text]
    simp only [tabs_blocks, h, Bool.false_eq_true, if_false, List.nil_append]
    rw [doc_body_text]

/-- Witness for C10: a whitespace-only paragraph, an empty cell, an empty
main body and a payload-free tab, each dropped. -/
theorem c10_blank_dropped_witness :
    hasVisibleText (runsText [some "  "]) = false ∧
    extract_text_from_elements [DocElement.paragraph [some "  "]] none 0 =
      extract_text_from_elements [] none 0 ∧
    extract_cells [[]] 0 = extract_cells [] 0 ∧
    doc_body_text [] [] = String.join (tabs_blocks []) ∧
    doc_body_text [] [Tab.mk none []] = doc_body_text [] [] :=
  ⟨by decide,
   c10_blank_dropped.1 [some "  "] [] none 0 (by decide),
   c10_blank_dropped.2.1 [] [] 0 (by
     rw [extract_text_from_elements.eq_def]
     simp [extract_elems, String.join, hasVisibleText]),
   c10_blank_dropped.2.2.1 [] [] (by
     rw [extract_text_from_elements.eq_def]
     simp [extract_elems, String.join, hasVisibleText]),
   c10_blank_dropped.2.2.2 [] (Tab.mk none []) [] (by
     rw [process_tab_hierarchy.eq_def]
     simp [process_child_tabs.eq_def, hasVisibleText])⟩
